import Mathlib

/-
Verification of the currency-conversion core of nextjs-calculator-pro.

The development shallowly embeds the arithmetic, validation, caching and
rate-orchestration routines of the repository into Lean.  JS numbers are
modelled as rationals (ℚ), JS strings as String, thrown exceptions as
Except values, and the process-wide cache singleton plus the wall clock
are passed as explicit arguments.  Several routines in the source are
placeholders whose bodies ignore their inputs; the embedding reproduces
those bodies exactly as written.
-/

/-- JS `Math.round`: nearest integer, with exact .5 ties rounded toward
positive infinity. -/
def jsRound (q : ℚ) : ℤ := ⌊q + 1/2⌋

/-- Source `DECIMAL_PRECISION` from `src/lib/constants/config.ts`. -/
def DECIMAL_PRECISION : ℕ := 6

/-- Source `roundToDecimals` from `src/lib/conversion/calculate.ts`.  The body is
the placeholder `Math.round(value * 10^decimals) / 10^decimals`; the
documented banker's rounding is not implemented. -/
def roundToDecimals (value : ℚ) (decimals : ℕ) : ℚ :=
  (jsRound (value * 10 ^ decimals) : ℚ) / 10 ^ decimals

/-- Source `roundToMinorUnit` from `src/lib/conversion/calculate.ts`: delegates to
`roundToDecimals`. -/
def roundToMinorUnit (value : ℚ) (minorUnit : ℕ) : ℚ :=
  roundToDecimals value minorUnit

/-- Source `convertAmount` from `src/lib/conversion/calculate.ts`: the placeholder
is a plain multiplication. -/
def convertAmount (amount : ℚ) (rate : ℚ) : ℚ := amount * rate

example : roundToDecimals (5/2) 0 = 3 := by
  norm_num [roundToDecimals, jsRound]

/-- Claim C3: the claim states `roundToDecimals` uses banker's rounding with
`roundToDecimals(2.5, 0) == 2` and `roundToDecimals(3.5, 0) == 4`.  The code
(contradicting its own doc comment) uses plain `Math.round`, so 2.5 rounds
up to 3, not to the even neighbour 2. -/
theorem roundToDecimals_half_up_not_bankers :
    roundToDecimals (5/2) 0 = 3 ∧ roundToDecimals (5/2) 0 ≠ 2 ∧
      roundToDecimals (7/2) 0 = 4 := by
  norm_num [roundToDecimals, jsRound]

/-- Claim C8: rounding to a currency minor unit is idempotent: for every x
and every minorUnit n in \x7b0,1,2,3\x7d,
`roundToMinorUnit (roundToMinorUnit x n) n = roundToMinorUnit x n`. -/
theorem roundToMinorUnit_idempotent (x : ℚ) (n : ℕ) (_hn : n ≤ 3) :
    roundToMinorUnit (roundToMinorUnit x n) n = roundToMinorUnit x n := by
  clear _hn
  unfold roundToMinorUnit roundToDecimals jsRound
  have h10 : ((10 : ℚ) ^ n) ≠ 0 := by positivity
  rw [div_mul_cancel₀ _ h10, Int.floor_int_add]
  norm_num

/-- Witness for C8 at x = 2.5, n = 2. -/
theorem roundToMinorUnit_idempotent_witness :
    (2 : ℕ) ≤ 3 ∧
      roundToMinorUnit (roundToMinorUnit (5/2) 2) 2 = roundToMinorUnit (5/2) 2 :=
  ⟨by decide, roundToMinorUnit_idempotent (5/2) 2 (by decide)⟩

/-- Source `ExchangeRate` from `src/lib/types/index.ts`: base currency, fetch
timestamp (epoch ms) and the base-relative rate table. -/
structure ExchangeRate where
  base : String
  timestamp : ℤ
  rates : List (String × ℚ)
deriving DecidableEq

/-- Source `CachedRates` from `src/lib/types/index.ts`: a snapshot together with
its caching metadata. -/
structure CachedRates where
  data : ExchangeRate
  cachedAt : ℤ
  expiresAt : ℤ
deriving DecidableEq

/-- Source `RATE_CACHE_DURATION` from `src/lib/constants/config.ts`: 5 minutes in
milliseconds. -/
def RATE_CACHE_DURATION : ℤ := 5 * 60 * 1000

/-- Source `STALE_CACHE_THRESHOLD` from `src/lib/constants/config.ts`: 24 hours in
milliseconds. -/
def STALE_CACHE_THRESHOLD : ℤ := 24 * 60 * 60 * 1000

/-- Source `STORAGE_KEYS.RATE_CACHE` from `src/lib/constants/config.ts`. -/
def STORAGE_KEYS_RATE_CACHE : String := "currency_converter_rate_cache"

/-- State of a `RateCache` instance: the in-memory tier keyed by cache key.
The durable localStorage tier is modelled alongside it. -/
structure RateCacheState where
  memoryCache : List (String × CachedRates)
  localStorage : List (String × String)
deriving DecidableEq

/-- JS `String.prototype.toLowerCase` restricted to the ASCII range, as a
map over the string's characters. -/
def jsToLowerCase (s : String) : String :=
  String.mk (s.data.map Char.toLower)

/-- Source `RateCache.getCacheKey`: namespace constant, underscore, lowercased
base-currency code. -/
def RateCache.getCacheKey (baseCurrency : String) : String :=
  STORAGE_KEYS_RATE_CACHE ++ "_" ++ jsToLowerCase baseCurrency

/-- Source `RateCache.get`: the source computes the cache key and then, the lookup
logic being an unimplemented TODO, returns null without consulting either
tier. -/
def RateCache.get (cache : RateCacheState) (baseCurrency : String) :
    Option CachedRates :=
  let _key := RateCache.getCacheKey baseCurrency
  let _ := cache
  none

/-- Source `RateCache.isValid`: calls `get`; on a miss returns false, and the
freshness comparison being an unimplemented TODO, returns false on a hit as
well. -/
def RateCache.isValid (cache : RateCacheState) (now : ℤ)
    (baseCurrency : String) : Bool :=
  match RateCache.get cache baseCurrency with
  | none => false
  | some _ =>
      let _ := now
      false

/-- Source `RateCache.isStale`: calls `get`; on a miss returns false, then computes
the entry's age, and the staleness window comparison being an unimplemented
TODO, returns false on a hit as well. -/
def RateCache.isStale (cache : RateCacheState) (now : ℤ)
    (baseCurrency : String) : Bool :=
  match RateCache.get cache baseCurrency with
  | none => false
  | some cached =>
      let _age := now - cached.cachedAt
      false

/-- A sample snapshot for the USD base, used as concrete input. -/
def usdSnapshot : ExchangeRate :=
  { base := "USD", timestamp := 0, rates := [("EUR", 93/100)] }

/-- A cache entry for USD created at epoch time 0, so it expires at
`RATE_CACHE_DURATION` (5 minutes). -/
def usdEntry : CachedRates :=
  { data := usdSnapshot, cachedAt := 0, expiresAt := RATE_CACHE_DURATION }

/-- A cache whose in-memory tier holds the USD entry under its cache key. -/
def cacheWithUsdEntry : RateCacheState :=
  { memoryCache := [(RateCache.getCacheKey "USD", usdEntry)],
    localStorage := [] }

/-- Claim C4: the claim states that for an entry cached at T, `isValid` is
true exactly when now < expiresAt and `isStale` exactly when the age lies in
[5 min, 24 h); in particular valid at T+4:59 and stale at T+5:01 and at
T+23:59.  The code's `get` is a placeholder returning null and both window
checks are placeholders returning false, so with the USD entry cached at
T = 0 the code answers false at every one of those instants, where the claim
requires true. -/
theorem rateCache_windows_always_false :
    RateCache.isValid cacheWithUsdEntry 299000 "USD" = false ∧
      RateCache.isStale cacheWithUsdEntry 301000 "USD" = false ∧
      RateCache.isStale cacheWithUsdEntry 86340000 "USD" = false ∧
      RateCache.get cacheWithUsdEntry "USD" = none :=
  ⟨rfl, rfl, rfl, rfl⟩

/-- Claim C9: the cache key is the namespace constant followed by an
underscore and the lowercased base code, so two codes with the same
lowercase form (such as "USD" and "usd") collide on the same cache key. -/
theorem getCacheKey_lowercase (base other : String)
    (h : jsToLowerCase other = jsToLowerCase base) :
    RateCache.getCacheKey base
        = STORAGE_KEYS_RATE_CACHE ++ "_" ++ jsToLowerCase base ∧
      RateCache.getCacheKey other = RateCache.getCacheKey base := by
  refine ⟨rfl, ?_⟩
  unfold RateCache.getCacheKey
  rw [h]

/-- Witness for C9: "usd" and "USD" share a lowercase form and therefore a
cache key. -/
theorem getCacheKey_lowercase_witness :
    jsToLowerCase "usd" = jsToLowerCase "USD" ∧
      RateCache.getCacheKey "usd" = RateCache.getCacheKey "USD" :=
  ⟨by decide, (getCacheKey_lowercase "USD" "usd" (by decide)).2⟩

/-- Source `RateFetchError` from `src/lib/types/errors.ts`, as a value: message and
error-code tag. -/
structure RateFetchErr where
  message : String
  code : String
deriving DecidableEq

/-- The `RateSource` union from `src/lib/types/index.ts`. -/
inductive RateSource where
  | memory
  | cache
  | network
  | stale
deriving DecidableEq

/-- Source `ApiResponse<ExchangeRate>` from `src/lib/types/index.ts`: payload plus
provenance tag. -/
structure ApiResponse where
  data : ExchangeRate
  source : RateSource
deriving DecidableEq

/-- Source `RETRY_ATTEMPTS` from `src/lib/constants/config.ts`. -/
def RETRY_ATTEMPTS : ℕ := 2

/-- Source `RETRY_DELAYS` from `src/lib/constants/config.ts`: backoff waits in
milliseconds. -/
def RETRY_DELAYS : List ℕ := [200, 400]

/-- Source `fetchExchangeRates` from `src/lib/api/fetchRates.ts`.  The embedding
passes the network explicitly as the outcome of each would-be attempt, and
the result records, besides the returned value, how many attempts the code
performed and which backoff waits it took.  The source body is the
placeholder: it throws RateFetchError("fetchExchangeRates not implemented",
"API_ERROR") without performing any attempt or wait. -/
def fetchExchangeRates (attemptOutcome : ℕ → Except RateFetchErr ExchangeRate)
    (baseCurrency : String) :
    Except RateFetchErr ExchangeRate × ℕ × List ℕ :=
  let _ := attemptOutcome
  let _ := baseCurrency
  (Except.error { message := "fetchExchangeRates not implemented",
                  code := "API_ERROR" }, 0, [])

/-- A network in which the first two attempts fail transiently
(NETWORK_ERROR) and the third succeeds. -/
def transientThenOk : ℕ → Except RateFetchErr ExchangeRate := fun n =>
  if n < 2 then
    Except.error { message := "network failure", code := "NETWORK_ERROR" }
  else Except.ok usdSnapshot

/-- Claim C7: the claim states `fetchExchangeRates` makes up to 3 attempts,
retrying on transient failures with 200 ms then 400 ms waits.  The code is a
placeholder: against a network that fails transiently twice and then
succeeds, it performs zero attempts, takes no waits, and throws API_ERROR
instead of returning the third attempt's payload. -/
theorem fetchExchangeRates_never_attempts :
    fetchExchangeRates transientThenOk "USD"
        = (Except.error { message := "fetchExchangeRates not implemented",
                          code := "API_ERROR" }, 0, []) ∧
      (fetchExchangeRates transientThenOk "USD").1 ≠ Except.ok usdSnapshot ∧
      (fetchExchangeRates transientThenOk "USD").2.1 ≠ RETRY_ATTEMPTS + 1 ∧
      (fetchExchangeRates transientThenOk "USD").2.2 ≠ RETRY_DELAYS := by
  refine ⟨rfl, by simp [fetchExchangeRates], by decide, by decide⟩

/-- Source `getRates` from `src/lib/api/index.ts`.  The embedding passes the
process-wide cache singleton, the wall clock and the network explicitly, and
the result records how many fetch attempts the orchestrator caused.  The
source body is the placeholder: it throws RateFetchError("getRates not
implemented", "API_ERROR") without consulting the cache or the fetcher. -/
def getRates (cache : RateCacheState) (now : ℤ)
    (attemptOutcome : ℕ → Except RateFetchErr ExchangeRate)
    (baseCurrency : String) : Except RateFetchErr ApiResponse × ℕ :=
  let _ := cache
  let _ := now
  let _ := attemptOutcome
  let _ := baseCurrency
  (Except.error { message := "getRates not implemented",
                  code := "API_ERROR" }, 0)

/-- Claim C1: the claim states that with a valid (age < 5 min) cache entry,
`getRates` returns the cached snapshot with source "cache" and never invokes
the fetcher.  With the USD entry cached at T = 0 and the clock at T+1:40
(within the freshness window), the code instead throws
RateFetchError("getRates not implemented", "API_ERROR"). -/
theorem getRates_ignores_valid_cache :
    getRates cacheWithUsdEntry 100000 (fun _ => Except.ok usdSnapshot) "USD"
        = (Except.error { message := "getRates not implemented",
                          code := "API_ERROR" }, 0) ∧
      (getRates cacheWithUsdEntry 100000 (fun _ => Except.ok usdSnapshot)
            "USD").1
        ≠ Except.ok { data := usdSnapshot, source := RateSource.cache } := by
  refine ⟨rfl, by simp [getRates]⟩

/-- A network in which every attempt fails transiently. -/
def alwaysNetworkError : ℕ → Except RateFetchErr ExchangeRate := fun _ =>
  Except.error { message := "network failure", code := "NETWORK_ERROR" }

/-- Claim C2: the claim states that with no valid cache entry and a failing
fetch, `getRates` resolves with the stale snapshot (source "stale") whenever
a stale entry (age in [5 min, 24 h)) exists.  With the USD entry cached at
T = 0, the clock at T+10h and every fetch attempt failing, the code instead
throws RateFetchError("getRates not implemented", "API_ERROR") rather than
resolving with the stale payload. -/
theorem getRates_ignores_stale_cache :
    getRates cacheWithUsdEntry 36000000 alwaysNetworkError "USD"
        = (Except.error { message := "getRates not implemented",
                          code := "API_ERROR" }, 0) ∧
      (getRates cacheWithUsdEntry 36000000 alwaysNetworkError "USD").1
        ≠ Except.ok { data := usdSnapshot, source := RateSource.stale } := by
  refine ⟨rfl, by simp [getRates]⟩

/-- Source `calculateCrossRate` from `src/lib/conversion/crossRate.ts`.  The source
body is the placeholder: it throws Error("calculateCrossRate not
implemented") before any of the documented identity/direct/inverse/cross
cases. -/
def calculateCrossRate (fromCurrency toCurrency : String)
    (rates : List (String × ℚ)) (baseCurrency : String) : Except String ℚ :=
  let _ := fromCurrency
  let _ := toCurrency
  let _ := rates
  let _ := baseCurrency
  Except.error "calculateCrossRate not implemented"

/-- Claim C5: the claim states `calculateCrossRate (X, X, rates, base) = 1`
for every X, with the identity decided before any lookup.  The code throws
Error("calculateCrossRate not implemented") on every input, in particular on
the identity case from == to == base. -/
theorem calculateCrossRate_identity_throws :
    calculateCrossRate "USD" "USD" [("EUR", 93/100)] "USD"
        = Except.error "calculateCrossRate not implemented" ∧
      calculateCrossRate "USD" "USD" [("EUR", 93/100)] "USD" ≠ Except.ok 1 := by
  refine ⟨rfl, by simp [calculateCrossRate]⟩

/-- Source `ValidationResult` from `src/lib/types/index.ts`. -/
structure ValidationResult where
  valid : Bool
  value : Option ℚ
  error : Option String
deriving DecidableEq

/-- Source `validateAmount` from `src/lib/conversion/validate.ts`.  The source body
is the placeholder: it returns valid: false with the message "validateAmount
not implemented" for every input. -/
def validateAmount (input : String) : ValidationResult :=
  let _ := input
  { valid := false, value := none,
    error := some "validateAmount not implemented" }

/-- Claim C6: the claim states validateAmount("-50") and
validateAmount("1234567890123456") are rejected and validateAmount("100.50")
is accepted with value 100.50.  The code rejects every input, including the
well-formed "100.50", where the claim (and the function's own doc comment)
requires valid = true with value 100.50. -/
theorem validateAmount_rejects_everything :
    (validateAmount "-50").valid = false ∧
      (validateAmount "1234567890123456").valid = false ∧
      (validateAmount "100.50").valid = false ∧
      (validateAmount "100.50").value = none :=
  ⟨rfl, rfl, rfl, rfl⟩

/-- Source `Currency` from `src/lib/types/index.ts`: currency metadata. -/
structure Currency where
  code : String
  name : String
  symbol : String
  minorUnit : ℕ
  flag : Option String
deriving DecidableEq

/-- Source `CURRENCIES` from `src/lib/constants/currencies.ts`: the static currency
metadata table. -/
def CURRENCIES : List Currency :=
  [ { code := "USD", name := "US Dollar", symbol := "$", minorUnit := 2,
      flag := some "🇺🇸" },
    { code := "EUR", name := "Euro", symbol := "€", minorUnit := 2,
      flag := some "🇪🇺" },
    { code := "GBP", name := "British Pound", symbol := "£", minorUnit := 2,
      flag := some "🇬🇧" },
    { code := "JPY", name := "Japanese Yen", symbol := "¥", minorUnit := 0,
      flag := some "🇯🇵" },
    { code := "CAD", name := "Canadian Dollar", symbol := "CA$",
      minorUnit := 2, flag := some "🇨🇦" },
    { code := "AUD", name := "Australian Dollar", symbol := "A$",
      minorUnit := 2, flag := some "🇦🇺" },
    { code := "CHF", name := "Swiss Franc", symbol := "CHF", minorUnit := 2,
      flag := some "🇨🇭" },
    { code := "CNY", name := "Chinese Yuan", symbol := "¥", minorUnit := 2,
      flag := some "🇨🇳" },
    { code := "INR", name := "Indian Rupee", symbol := "₹", minorUnit := 2,
      flag := some "🇮🇳" },
    { code := "SGD", name := "Singapore Dollar", symbol := "S$",
      minorUnit := 2, flag := some "🇸🇬" },
    { code := "NZD", name := "New Zealand Dollar", symbol := "NZ$",
      minorUnit := 2, flag := some "🇳🇿" },
    { code := "HKD", name := "Hong Kong Dollar", symbol := "HK$",
      minorUnit := 2, flag := some "🇭🇰" },
    { code := "SEK", name := "Swedish Krona", symbol := "kr", minorUnit := 2,
      flag := some "🇸🇪" },
    { code := "NOK", name := "Norwegian Krone", symbol := "kr",
      minorUnit := 2, flag := some "🇳🇴" },
    { code := "DKK", name := "Danish Krone", symbol := "kr", minorUnit := 2,
      flag := some "🇩🇰" },
    { code := "KRW", name := "South Korean Won", symbol := "₩",
      minorUnit := 0, flag := some "🇰🇷" },
    { code := "MXN", name := "Mexican Peso", symbol := "MX$", minorUnit := 2,
      flag := some "🇲🇽" },
    { code := "BRL", name := "Brazilian Real", symbol := "R$",
      minorUnit := 2, flag := some "🇧🇷" },
    { code := "ZAR", name := "South African Rand", symbol := "R",
      minorUnit := 2, flag := some "🇿🇦" },
    { code := "RUB", name := "Russian Ruble", symbol := "₽", minorUnit := 2,
      flag := some "🇷🇺" },
    { code := "TRY", name := "Turkish Lira", symbol := "₺", minorUnit := 2,
      flag := some "🇹🇷" },
    { code := "THB", name := "Thai Baht", symbol := "฿", minorUnit := 2,
      flag := some "🇹🇭" },
    { code := "IDR", name := "Indonesian Rupiah", symbol := "Rp",
      minorUnit := 2, flag := some "🇮🇩" },
    { code := "MYR", name := "Malaysian Ringgit", symbol := "RM",
      minorUnit := 2, flag := some "🇲🇾" },
    { code := "PHP", name := "Philippine Peso", symbol := "₱",
      minorUnit := 2, flag := some "🇵🇭" },
    { code := "PLN", name := "Polish Zloty", symbol := "zł", minorUnit := 2,
      flag := some "🇵🇱" },
    { code := "CZK", name := "Czech Koruna", symbol := "Kč", minorUnit := 2,
      flag := some "🇨🇿" },
    { code := "ILS", name := "Israeli Shekel", symbol := "₪", minorUnit := 2,
      flag := some "🇮🇱" },
    { code := "AED", name := "UAE Dirham", symbol := "د.إ", minorUnit := 2,
      flag := some "🇦🇪" },
    { code := "SAR", name := "Saudi Riyal", symbol := "﷼", minorUnit := 2,
      flag := some "🇸🇦" } ]

/-- Source `CURRENCY_MAP` from `src/lib/constants/currencies.ts`, as its lookup
function.  The source builds a record by a reduce over `CURRENCIES`, so for
a duplicated code the last entry would win; scanning the reversed list
reproduces that. -/
def CURRENCY_MAP (code : String) : Option Currency :=
  CURRENCIES.reverse.find? (fun c => c.code = code)

/-- JS `Number.prototype.toFixed` on rationals, following ECMA-262: strip
the sign, pick the integer closest to |x|·10^f (ties away from zero), and
render it with exactly f digits after the decimal point (none, and no
point, when f = 0). -/
def toFixed (x : ℚ) (f : ℕ) : String :=
  let sign := if x < 0 then "-" else ""
  let absx := if x < 0 then -x else x
  let scaled : ℤ := Rat.floor (absx * 10 ^ f + 1/2)
  let k : ℕ := scaled.toNat
  let intPart : ℕ := k / 10 ^ f
  let fracDigits : List Char :=
    (List.range f).map (fun i => Nat.digitChar (k / 10 ^ (f - 1 - i) % 10))
  sign ++ toString intPart ++
    (if f = 0 then "" else "." ++ String.mk fracDigits)

/-- Source `formatCurrency` from `src/lib/conversion/format.ts`: looks the code up
in `CURRENCY_MAP`; on a miss formats the bare amount with `toFixed(2)`, on a
hit prepends the currency's symbol to the amount formatted with
`toFixed(minorUnit)`.  The optional `minorUnit` override parameter is
accepted and, in the source's body, ignored. -/
def formatCurrency (amount : ℚ) (currencyCode : String)
    (minorUnit : Option ℕ) : String :=
  let _ := minorUnit
  match CURRENCY_MAP currencyCode with
  | none => toFixed amount 2
  | some currency => currency.symbol ++ toFixed amount currency.minorUnit

/-- Claim C10: for a code absent from `CURRENCY_MAP`, `formatCurrency`
returns the amount rendered to 2 decimal places with no symbol; for a code
present in the map it returns the currency's symbol immediately followed by
the amount rendered to the currency's minorUnit decimal places. -/
theorem formatCurrency_by_map_membership (amount : ℚ) (code : String)
    (mu : Option ℕ) :
    (CURRENCY_MAP code = none → formatCurrency amount code mu = toFixed amount 2) ∧
      (∀ c, CURRENCY_MAP code = some c →
        formatCurrency amount code mu = c.symbol ++ toFixed amount c.minorUnit) := by
  constructor
  · intro h
    simp [formatCurrency, h]
  · intro c h
    simp [formatCurrency, h]

/-- Witness for C10: the unknown code "ZZZ" formats bare with 2 decimals,
and "EUR" (minor unit 2, symbol €) formats as the symbol followed by the
2-decimal rendering. -/
theorem formatCurrency_by_map_membership_witness :
    formatCurrency (187/2) "ZZZ" none = toFixed (187/2) 2 ∧
      formatCurrency (187/2) "EUR" none = "€" ++ toFixed (187/2) 2 :=
  ⟨(formatCurrency_by_map_membership (187/2) "ZZZ" none).1 (by rfl),
   (formatCurrency_by_map_membership (187/2) "EUR" none).2
      { code := "EUR", name := "Euro", symbol := "€", minorUnit := 2,
        flag := some "🇪🇺" } (by rfl)⟩
